import Mathlib

/-!
Shallow embedding of `src/string_view/string_view.cpp`: a pedagogical
`BasicStringView` (non-owning pointer pair into character storage) together
with its capability-probing constructor, the sample source types
`MyObject0` .. `MyObject4`, the accepting function `f`, and the observable
event traces of the checks performed in `main`.

Machine pointers into character storage are modelled as indices into an
explicit buffer (`List Char`); each view additionally carries an
instrumentation tag recording which storage its pointers alias, so that
lifetime (dangling) facts can be stated.  Console diagnostics and
construction/destruction of the constructor's default-argument temporaries
are modelled as an explicit event trace.
-/

namespace StringViewDemo

/-- The null character terminating a C string. -/
def NUL : Char := Char.ofNat 0

/-- C `strlen`: the number of characters strictly before the first null
terminator.  (`BasicStringView(const char *s)` computes `s + strlen(s)` as
its one-past-the-end pointer.) -/
def strlen : List Char → Nat
  | [] => 0
  | c :: cs => if c = NUL then 0 else strlen cs + 1

/-- Instrumentation tag: which storage a view's pointer pair aliases. -/
inductive Referent
  | literalBuf
  | srcObj
  | localString
  | cheatTemp
  deriving DecidableEq

/-- The view: `first`/`last` are the two pointers of `BasicStringView<char>`,
modelled as indices into the aliased buffer `buf` (whose contents at
construction time are recorded); `ref` tags whose storage is aliased. -/
structure StringView where
  buf : List Char
  first : Nat
  last : Nat
  ref : Referent
  deriving DecidableEq

/-- Constructor `BasicStringView( const char *s ) : first( s ),
last( s + strlen( s ) )`.  The argument is the full null-terminated buffer. -/
def StringView.fromCString (s : List Char) (r : Referent) : StringView :=
  { buf := s, first := 0, last := strlen s, ref := r }

/-- Constructor `BasicStringView( const std::string &s )
: first( &s[ 0 ] ), last( &s[ 0 ] + s.size() )`.  The argument is the
string's contents; the range is determined by `size()`, not by any null. -/
def StringView.fromStdString (s : List Char) (r : Referent) : StringView :=
  { buf := s, first := 0, last := s.length, ref := r }

/-- Stream insertion `operator <<`: `std::copy( begin( v ), end( v ), ... )`
writes exactly the characters in `[first, last)`, no added terminator. -/
def streamOut (v : StringView) : List Char :=
  (v.buf.drop v.first).take (v.last - v.first)

/-- Qualification of a member conversion operator `operator std::string()`
on a source type: absent, declared non-const, or declared const. -/
inductive OwnedStrOp
  | absent
  | nonConstOp
  | constOp
  deriving DecidableEq

/-- Compile-time capabilities of a source type: which conversion operators
it declares (`operator std::string`, `operator const char *`,
`operator const std::string &`, `operator MyStd::StringView`). -/
structure TypeCaps where
  ownedOp : OwnedStrOp
  opCharPtr : Bool
  opStringRef : Bool
  opView : Bool
  deriving DecidableEq

/-- Validity of the probe expression
`std::declval< T >().operator std::string ()` of the first partial
specialisation of `is_temp_string_convertible`: `declval< T >()` is an
rvalue of `T`, on which both a const-qualified and a non-const member
operator are callable, so the probe succeeds exactly when the member
operator exists. -/
def probeDirect (T : TypeCaps) : Bool := T.ownedOp ≠ OwnedStrOp.absent

/-- Validity of the probe expression
`std::as_const( std::declval< T >() ).operator std::string ()` of the second
partial specialisation: for the non-reference types this program
instantiates, `declval< T >()` is an xvalue, the lvalue overload of
`std::as_const` cannot bind it and the `const T &&` overload is deleted, so
the expression is ill-formed in the immediate context and this
specialisation never matches. -/
def probeAsConst (_T : TypeCaps) : Bool := false

/-- The `is_temp_string_convertible` trait: `false_type` primary template,
`true_type` when either partial specialisation's probe expression is valid
(the two specialisations never both match at the instantiations that occur,
since the `as_const` probe is never valid there). -/
def is_temp_string_convertible (T : TypeCaps) : Bool :=
  probeDirect T || probeAsConst T

/-- `std::is_convertible< AlienType, const char * >`: only the
`operator const char *` conversion yields a pointer in one user-defined
conversion. -/
def is_convertible_to_charPtr (T : TypeCaps) : Bool := T.opCharPtr

/-- `std::is_convertible< AlienType, std::string >`: a `std::string` value
is produced by `operator std::string` or by copying through
`operator const std::string &` (a pointer result would need a second
user-defined conversion, which implicit conversion forbids). -/
def is_convertible_to_string (T : TypeCaps) : Bool :=
  T.ownedOp ≠ OwnedStrOp.absent || T.opStringRef

/-- `std::is_convertible< AlienType, const std::string & >`: satisfied by
`operator const std::string &`, or by `operator std::string` whose
temporary result binds to the const reference. -/
def is_convertible_to_stringRef (T : TypeCaps) : Bool :=
  T.opStringRef || T.ownedOp ≠ OwnedStrOp.absent

/-- The `enable_if` condition of the capability-probing constructor
template (disjunction of the three `is_convertible` probes). -/
def ctorEnabled (T : TypeCaps) : Bool :=
  is_convertible_to_charPtr T || is_convertible_to_string T
    || is_convertible_to_stringRef T

/-- The three strategies of the selection lambda inside the
capability-probing constructor. -/
inductive Strategy
  | extendOwned
  | fromCharPtr
  | fromStringRef
  deriving DecidableEq

/-- The `if constexpr` chain of the selection lambda (source order):
`is_temp_string_convertible` first, then `is_convertible< .., const char * >`,
else `static_cast< const std::string & >`. -/
def selectStrategy (T : TypeCaps) : Strategy :=
  if is_temp_string_convertible T then Strategy.extendOwned
  else if is_convertible_to_charPtr T then Strategy.fromCharPtr
  else Strategy.fromStringRef

/-- Whether a given strategy's branch would compile for a type (its guarding
conversion is available): used to state that the selected strategy is the
highest-priority applicable one. -/
def applies (T : TypeCaps) : Strategy → Bool
  | Strategy.extendOwned => is_temp_string_convertible T
  | Strategy.fromCharPtr => is_convertible_to_charPtr T
  | Strategy.fromStringRef => is_convertible_to_stringRef T

/-- Rank of a strategy in the order the selection lambda's `if constexpr`
chain tests them (higher rank is tested, and hence taken, earlier). -/
def priority : Strategy → Nat
  | Strategy.extendOwned => 2
  | Strategy.fromCharPtr => 1
  | Strategy.fromStringRef => 0

/-- Outcome of overload resolution when copy-initialising a `StringView`
from a class-type value (as in `f( o )` or `StringView sanity= o`). -/
inductive Resolution
  | directView
  | viaCtor (s : Strategy)
  deriving DecidableEq

/-- Overload resolution for converting a class-type value of capabilities
`T` to `StringView`: a non-template conversion function
`operator MyStd::StringView` is an exact match and beats the constructor
template; otherwise the enabled constructor template is used; with neither,
the initialisation is ill-formed (`none` = compile-time rejection). -/
def resolveInit (T : TypeCaps) : Option Resolution :=
  if T.opView then some Resolution.directView
  else if ctorEnabled T then some (Resolution.viaCtor (selectStrategy T))
  else none

/-- Observable events: console diagnostics of the program, plus lifetime
markers for the `cheat` default-argument temporary and uses of a view. -/
inductive Event
  | outExtending
  | outNeeds
  | outBest
  | outKilling
  | outFCalled
  | outEllipsis
  | outChars (s : List Char)
  | cheatBorn
  | cheatDead
  | viewUse (r : Referent)
  deriving DecidableEq

/-- A sample source type: its capabilities, its private `std::string`
member, and the console events its conversion-operator bodies emit. -/
structure SrcObj where
  caps : TypeCaps
  str : List Char
  ownedOpEvents : List Event
  viewOpEvents : List Event

def hello : List Char := "Hello".toList

def helloWorld : List Char := "Hello world".toList

/-- `MyObject0`: `operator const std::string &` and `operator const char *`,
member string "Hello". -/
def MyObject0 : SrcObj :=
  ⟨⟨OwnedStrOp.absent, true, true, false⟩, hello, [], []⟩

/-- `MyObject1`: only `operator std::string () const`, whose body prints
"Needs extension"; member string "Hello world". -/
def MyObject1 : SrcObj :=
  ⟨⟨OwnedStrOp.constOp, false, false, false⟩, helloWorld, [Event.outNeeds], []⟩

/-- `MyObject2`: only `operator const char *`. -/
def MyObject2 : SrcObj :=
  ⟨⟨OwnedStrOp.absent, true, false, false⟩, helloWorld, [], []⟩

/-- `MyObject3`: only `operator const std::string &`. -/
def MyObject3 : SrcObj :=
  ⟨⟨OwnedStrOp.absent, false, true, false⟩, helloWorld, [], []⟩

/-- `MyObject4`: `operator const std::string &` and
`operator MyStd::StringView`, whose body prints "Best choice!". -/
def MyObject4 : SrcObj :=
  ⟨⟨OwnedStrOp.absent, false, true, true⟩, helloWorld, [], [Event.outBest]⟩

/-- Run the capability-probing constructor for object `o`: the default
arguments (`facepunch`, `cheat`, `Verify`) are constructed, then the
delegating selection lambda runs.  Returns the events emitted during
construction and the constructed view.
  * `extendOwned`: prints "Extending lifetime", assigns
    `cheat= a.operator std::string()` (running the operator's body), and
    builds the view from `cheat` — the view aliases the `cheat` temporary.
  * `fromCharPtr`: builds the view from `static_cast< const char * >( a )`,
    a null-terminated buffer owned by the source object.
  * `fromStringRef`: builds the view aliasing
    `static_cast< const std::string & >( a )`, owned by the source object. -/
def runCtorTemplate (o : SrcObj) : List Event × StringView :=
  match selectStrategy o.caps with
  | Strategy.extendOwned =>
      ([Event.cheatBorn, Event.outExtending] ++ o.ownedOpEvents,
        StringView.fromStdString o.str Referent.cheatTemp)
  | Strategy.fromCharPtr =>
      ([Event.cheatBorn],
        StringView.fromCString (o.str ++ [NUL]) Referent.srcObj)
  | Strategy.fromStringRef =>
      ([Event.cheatBorn],
        StringView.fromStdString o.str Referent.srcObj)

/-- Destruction, at the end of the full expression containing a call of the
capability-probing constructor, of its default-argument temporaries in
reverse construction order: the `Verify` sentinel (its destructor prints
"Killing lifetime extension"), then the `cheat` string. -/
def fullExprDtors : List Event := [Event.outKilling, Event.cheatDead]

/-- Convert a source object to a `StringView` (copy-initialisation):
returns the construction events, the view, and the events of destroying the
constructor's default-argument temporaries at the end of the enclosing full
expression — or `none` when the conversion is ill-formed.  The
`directView` path runs `operator MyStd::StringView`, which returns a view
of the member string and creates no default-argument temporaries. -/
def convertToView (o : SrcObj) : Option (List Event × StringView × List Event) :=
  match resolveInit o.caps with
  | some Resolution.directView =>
      some (o.viewOpEvents, StringView.fromStdString o.str Referent.srcObj, [])
  | some (Resolution.viaCtor _) =>
      some ((runCtorTemplate o).1, (runCtorTemplate o).2, fullExprDtors)
  | none => none

/-- Body of `f( MyStd::StringView v )`: prints "F Called with: ", streams
the view (a use of its referent), prints "...". -/
def runF (v : StringView) : List Event :=
  [Event.outFCalled, Event.viewUse v.ref, Event.outChars (streamOut v),
    Event.outEllipsis]

/-- Full trace of the statement `f( o );`: conversion of the argument,
the body of `f`, then destruction of the full expression's temporaries. -/
def stmtFCall (o : SrcObj) : Option (List Event) :=
  match convertToView o with
  | some (ces, v, des) => some (ces ++ runF v ++ des)
  | none => none

/-- Trace of `f( o1 );` (`o1 : MyObject1`). -/
def fCallO1Trace : List Event := (stmtFCall MyObject1).getD []

/-- Trace of the Check 3 block of `main`: `MyStd::StringView sanity= o1;`
is a declaration statement, so the constructor's default-argument
temporaries die at its end, before the later statement that streams
`sanity` (recorded here as the use of its referent; the characters the
stream would read come from freed storage and are left unmodelled). -/
def check3Trace : List Event :=
  match convertToView MyObject1 with
  | some (ces, v, des) => ces ++ des ++ [Event.viewUse v.ref]
  | none => []

/-- Does an event satisfying `p` occur strictly before every event
satisfying `q` (with at least one `p`-event present)? -/
def firstBefore (p q : Event → Bool) : List Event → Bool
  | [] => false
  | e :: es => if q e then false else if p e then true else firstBefore p q es

def isExtending : Event → Bool
  | Event.outExtending => true
  | _ => false

def isKilling : Event → Bool
  | Event.outKilling => true
  | _ => false

def isFCalled : Event → Bool
  | Event.outFCalled => true
  | _ => false

def isCheatDead : Event → Bool
  | Event.cheatDead => true
  | _ => false

def isOutChars : Event → Bool
  | Event.outChars _ => true
  | _ => false

def isViewUse : Event → Bool
  | Event.viewUse _ => true
  | _ => false

/-- Capabilities of a type exposing all three string-like conversions. -/
def allThreeCaps : TypeCaps := ⟨OwnedStrOp.constOp, true, true, false⟩

/-- Capabilities of a type exposing both the reference-to-string and the
value-producing string conversion. -/
def refAndOwnedCaps : TypeCaps := ⟨OwnedStrOp.constOp, false, true, false⟩

/-- Capabilities of a type exposing only `operator MyStd::StringView`. -/
def viewOnlyCaps : TypeCaps := ⟨OwnedStrOp.absent, false, false, true⟩

/-- Capabilities of a type exposing no conversion at all. -/
def noConvCaps : TypeCaps := ⟨OwnedStrOp.absent, false, false, false⟩

theorem strlen_append_nul (s : List Char) (h : NUL ∉ s) :
    strlen (s ++ [NUL]) = s.length := by
  induction s with
  | nil => simp [strlen]
  | cons c cs ih =>
      have hc : c ≠ NUL := by
        intro e
        exact h (e ▸ List.mem_cons_self c cs)
      have hcs : NUL ∉ cs := fun hm => h (List.mem_cons_of_mem c hm)
      simp only [List.cons_append, strlen, if_neg hc, List.append_eq, ih hcs,
        List.length_cons]

/-- C1: for every source type accepted by the capability-probing
constructor, the selection lambda's branches are evaluated in source order
and the owned-string-producing branch is taken whenever the type is
classified `is_temp_string_convertible`, even if the type also exposes the
reference-to-string or raw-pointer conversion; `selectStrategy` is a pure
function of the type's capabilities, so exactly one strategy is selected
per type, at compile time. -/
theorem claim1_owned_strategy_first (T : TypeCaps) (hen : ctorEnabled T = true)
    (hown : is_temp_string_convertible T = true) :
    selectStrategy T = Strategy.extendOwned := by
  obtain ⟨q, p, r, v⟩ := T
  revert hen hown
  cases q <;> cases p <;> cases r <;> cases v <;> decide

/-- Witness for C1 at a type exposing all three conversions: the
owned-string strategy is still the one selected. -/
theorem claim1_owned_strategy_first_witness :
    ctorEnabled allThreeCaps = true
      ∧ selectStrategy allThreeCaps = Strategy.extendOwned :=
  ⟨by decide, claim1_owned_strategy_first allThreeCaps (by decide) (by decide)⟩

/-- C2 counterexample: the claimed priority table (reference-to-string over
pointer over owned value) is not the code's.  For `MyObject0`, which
exposes both the reference and the raw-pointer conversions, the selection
lambda takes the raw-pointer branch, not the reference-aliasing branch; and
for a type exposing both the reference and the value-producing conversion,
the value-producing branch wins over the reference. -/
theorem claim2_counterexample_pointer_beats_reference :
    selectStrategy MyObject0.caps = Strategy.fromCharPtr
      ∧ Strategy.fromCharPtr ≠ Strategy.fromStringRef
      ∧ resolveInit MyObject0.caps = some (Resolution.viaCtor Strategy.fromCharPtr)
      ∧ selectStrategy refAndOwnedCaps = Strategy.extendOwned
      ∧ Strategy.extendOwned ≠ Strategy.fromStringRef := by
  refine ⟨by decide, by decide, by decide, by decide, by decide⟩

/-- C2 amended: an exact-type match (a non-template conversion function to
the View type) dominates the constructor template, but within the
capability-probing constructor the fixed priority order is owned-value over
borrowed-pointer over borrowed-reference: the selected strategy is always
applicable and of maximal `priority` among the applicable strategies; in
particular `MyObject0` selects the borrowed-pointer path. -/
theorem claim2_amended_priority_table (T : TypeCaps) (hen : ctorEnabled T = true) :
    (applies T (selectStrategy T) = true
        ∧ ∀ s : Strategy, applies T s = true → priority s ≤ priority (selectStrategy T))
      ∧ (∀ U : TypeCaps, U.opView = true → resolveInit U = some Resolution.directView)
      ∧ resolveInit MyObject0.caps = some (Resolution.viaCtor Strategy.fromCharPtr) := by
  obtain ⟨q, p, r, v⟩ := T
  refine ⟨⟨?_, ?_⟩, ?_, by decide⟩
  · revert hen
    cases q <;> cases p <;> cases r <;> cases v <;> decide
  · intro s
    revert hen
    cases q <;> cases p <;> cases r <;> cases v <;> cases s <;> decide
  · intro U hU
    obtain ⟨q2, p2, r2, v2⟩ := U
    revert hU
    cases q2 <;> cases p2 <;> cases r2 <;> cases v2 <;> decide

/-- Witness for the amended C2 at `MyObject0`: the strategy the constructor
selects for it is applicable to it. -/
theorem claim2_amended_priority_table_witness :
    applies MyObject0.caps (selectStrategy MyObject0.caps) = true :=
  (claim2_amended_priority_table MyObject0.caps (by decide)).1.1

/-- C3: for `MyObject4` (reference-to-string conversion plus a direct
conversion to the View type), overload resolution selects the direct View
conversion, and in the trace of `f( o4 )` the diagnostic "Best choice!" is
emitted while "Extending lifetime" is absent. -/
theorem claim3_exact_view_conversion_dominates :
    resolveInit MyObject4.caps = some Resolution.directView
      ∧ (stmtFCall MyObject4).isSome = true
      ∧ Event.outBest ∈ (stmtFCall MyObject4).getD []
      ∧ Event.outExtending ∉ (stmtFCall MyObject4).getD [] := by
  refine ⟨by decide, by decide, by decide, by decide⟩

/-- C4: every source type exposing only the value-producing string
conversion resolves to the lifetime-extension strategy; concretely, for
`MyObject1` the conversion result is stored into the `cheat` holder and the
view is built aliasing it, and in the trace of `f( o1 )` the diagnostic
"Extending lifetime" occurs before any characters of the view's content are
output. -/
theorem claim4_extension_path (T : TypeCaps) (h1 : T.ownedOp ≠ OwnedStrOp.absent)
    (h2 : T.opCharPtr = false) (h3 : T.opStringRef = false)
    (h4 : T.opView = false) :
    resolveInit T = some (Resolution.viaCtor Strategy.extendOwned)
      ∧ firstBefore isExtending isOutChars fCallO1Trace = true
      ∧ Event.outChars helloWorld ∈ fCallO1Trace
      ∧ (convertToView MyObject1).map (fun x => x.2.1)
          = some (StringView.fromStdString helloWorld Referent.cheatTemp) := by
  obtain ⟨q, p, r, v⟩ := T
  revert h1 h2 h3 h4
  cases q <;> cases p <;> cases r <;> cases v <;> decide

/-- Witness for C4 at `MyObject1` itself. -/
theorem claim4_extension_path_witness :
    resolveInit MyObject1.caps = some (Resolution.viaCtor Strategy.extendOwned)
      ∧ firstBefore isExtending isOutChars fCallO1Trace = true
      ∧ Event.outChars helloWorld ∈ fCallO1Trace
      ∧ (convertToView MyObject1).map (fun x => x.2.1)
          = some (StringView.fromStdString helloWorld Referent.cheatTemp) :=
  claim4_extension_path MyObject1.caps (by decide) (by decide) (by decide) (by decide)

/-- C5 counterexample: a type exposing none of the three string-like
conversions but exposing a direct conversion to the View type is not
rejected — it converts through the non-template conversion function — so
the claim that every type with none of the three conversions fails to
compile is false at `viewOnlyCaps`. -/
theorem claim5_counterexample_view_only_type_accepted :
    is_temp_string_convertible viewOnlyCaps = false
      ∧ is_convertible_to_charPtr viewOnlyCaps = false
      ∧ is_convertible_to_stringRef viewOnlyCaps = false
      ∧ ctorEnabled viewOnlyCaps = false
      ∧ resolveInit viewOnlyCaps = some Resolution.directView
      ∧ resolveInit viewOnlyCaps ≠ none := by
  refine ⟨by decide, by decide, by decide, by decide, by decide, by decide⟩

/-- C5 amended: every type exposing none of the three conversions and no
direct conversion to the View type either is rejected at compile time: the
capability-probing constructor's `enable_if` excludes it and the
initialisation is ill-formed. -/
theorem claim5_amended_compile_time_rejection (T : TypeCaps)
    (h1 : T.ownedOp = OwnedStrOp.absent) (h2 : T.opCharPtr = false)
    (h3 : T.opStringRef = false) (h4 : T.opView = false) :
    ctorEnabled T = false ∧ resolveInit T = none := by
  obtain ⟨q, p, r, v⟩ := T
  revert h1 h2 h3 h4
  cases q <;> cases p <;> cases r <;> cases v <;> decide

/-- Witness for the amended C5 at a type with no conversions at all. -/
theorem claim5_amended_compile_time_rejection_witness :
    ctorEnabled noConvCaps = false ∧ resolveInit noConvCaps = none :=
  claim5_amended_compile_time_rejection noConvCaps (by decide) (by decide)
    (by decide) (by decide)

/-- C7: the constructor's default-argument temporaries die at the end of
the full expression that created them, not with the view they seeded: in
the trace of `f( o1 )` the "F Called with: " output precedes the `Verify`
destructor's "Killing lifetime extension"; and in the Check 3 block, the
`cheat` temporary is destroyed (right after the declaration statement)
before the later statement that uses the view `sanity`, whose referent is
that `cheat` temporary. -/
theorem claim7_default_argument_temporaries_die_at_full_expression :
    firstBefore isFCalled isKilling fCallO1Trace = true
      ∧ Event.outKilling ∈ fCallO1Trace
      ∧ firstBefore isCheatDead isViewUse check3Trace = true
      ∧ Event.viewUse Referent.cheatTemp ∈ check3Trace := by
  refine ⟨by decide, by decide, by decide, by decide⟩

/-- C8: constructing a view from a null-terminated literal holding the `L`
characters of `s` (none of them null) followed by the terminator yields a
range of exactly `L` characters, and streaming the view writes exactly
those `L` characters with no added terminator. -/
theorem claim8_literal_view_length (s : List Char) (h : NUL ∉ s) :
    (StringView.fromCString (s ++ [NUL]) Referent.literalBuf).last
        - (StringView.fromCString (s ++ [NUL]) Referent.literalBuf).first
        = s.length
      ∧ streamOut (StringView.fromCString (s ++ [NUL]) Referent.literalBuf) = s := by
  have hl : strlen (s ++ [NUL]) = s.length := strlen_append_nul s h
  constructor
  · simp [StringView.fromCString, hl]
  · simp [streamOut, StringView.fromCString, hl, List.take_left]

/-- Witness for C8 at the literal "Check 1" of the Check 1 block. -/
theorem claim8_literal_view_length_witness :
    streamOut (StringView.fromCString ("Check 1".toList ++ [NUL]) Referent.literalBuf)
      = "Check 1".toList :=
  (claim8_literal_view_length ("Check 1".toList) (by decide)).2

/-- C9: a type is classified `is_temp_string_convertible` exactly when it
declares a member conversion operator producing a string by value (const or
not: either is callable on the rvalue probed), and validity of either of
the two probe expressions (on the type directly, or through `as_const`)
suffices for the classification. -/
theorem claim9_owned_string_probe (T : TypeCaps) :
    (is_temp_string_convertible T = true ↔ T.ownedOp ≠ OwnedStrOp.absent)
      ∧ (probeDirect T = true ∨ probeAsConst T = true
          → is_temp_string_convertible T = true) := by
  obtain ⟨q, p, r, v⟩ := T
  cases q <;> cases p <;> cases r <;> cases v <;> exact ⟨by decide, by decide⟩

/-- Witness for C9 at `MyObject1`, which declares
`operator std::string () const` and is classified convertible. -/
theorem claim9_owned_string_probe_witness :
    is_temp_string_convertible MyObject1.caps = true :=
  (claim9_owned_string_probe MyObject1.caps).1.mpr (by decide)

/-- C10: constructing a view from a string of contents `s` yields a range
of exactly `s.size()` characters — for every `s`, including the empty
string (where the range is empty) and strings with embedded null
characters — and streaming the view writes exactly those characters,
embedded nulls included. -/
theorem claim10_string_view_range (s : List Char) (r : Referent) :
    (StringView.fromStdString s r).last - (StringView.fromStdString s r).first
        = s.length
      ∧ streamOut (StringView.fromStdString s r) = s
      ∧ (StringView.fromStdString ([] : List Char) r).first
        = (StringView.fromStdString ([] : List Char) r).last := by
  refine ⟨by simp [StringView.fromStdString], ?_, by simp [StringView.fromStdString]⟩
  simp [streamOut, StringView.fromStdString]

end StringViewDemo
